import Mathlib

/-!
Shallow embedding of `goravel.go` (package goravel): the startup routine
`New`, the server startup `ListenAndServe`, and the constructors
`createMailer`, `createClientRedisCache`, `createClientBadgerCache`,
`createRedisPool`, `createBadgerConn`, `BuildDSN`.

Environment variables are modelled as a total function `String → String`
(Go's `os.Getenv` returns `""` for an unset variable).  Filesystem and
network effects (directory creation, `.env` loading, `sql.Open`,
`badger.Open`) are modelled by an `Effects` record that records whether
each effectful call fails, since their outcomes are inputs to the control
flow of `New`.
-/

set_option maxHeartbeats 1000000

namespace Goravel

/-- The process environment: `os.Getenv` yields `""` for unset names. -/
def Env : Type := String → String

/-- `const version = "1.0.0"`. -/
def version : String := "1.0.0"

/-- A non-empty all-digit character list read as a decimal number;
anything else is a syntax error. -/
def goAtoiDigits (cs : List Char) : Option Nat :=
  if cs ≠ [] ∧ cs.all Char.isDigit then
    some (cs.foldl (fun acc d => acc * 10 + (d.toNat - 48)) 0)
  else none

/-- Go `strconv.Atoi` on a character list: an optional sign followed by
one or more decimal digits; anything else is a syntax error (`none`). -/
def goAtoiChars : List Char → Option Int
  | [] => none
  | c :: cs =>
    if c = '-' then (goAtoiDigits cs).map (fun n => -(n : Int))
    else if c = '+' then (goAtoiDigits cs).map (fun n => (n : Int))
    else (goAtoiDigits (c :: cs)).map (fun n => (n : Int))

/-- Go `strconv.Atoi`.  (Go additionally range-checks against the
platform int; the model omits the range check, which is irrelevant to
the inputs considered here.)  On error Go returns the pair `(0, err)`;
the discarded-error idiom `port, _ := strconv.Atoi(s)` therefore leaves
`0`. -/
def goAtoi (s : String) : Option Int := goAtoiChars s.data

/-- Go `strconv.ParseBool`: accepts exactly these twelve strings. -/
def goParseBool (s : String) : Option Bool :=
  if s = "1" || s = "t" || s = "T" || s = "true" || s = "TRUE" || s = "True" then
    some true
  else if s = "0" || s = "f" || s = "F" || s = "false" || s = "FALSE" || s = "False" then
    some false
  else
    none

/-- Go `strings.ToLower`, restricted to its action on ASCII letters
(on ASCII input the Unicode and ASCII lowerings agree, and no non-ASCII
character lowers onto a letter of "false"); implemented over the
character list so that it computes by structural recursion. -/
def goToLower (s : String) : String := String.mk (s.data.map Char.toLower)

/-- `type cookieConfig` (fields read from COOKIE_* variables). -/
structure cookieConfig where
  name : String
  lifetime : String
  persist : String
  secureStr : String
  domain : String
deriving Repr, DecidableEq

/-- `type databaseConfig`. -/
structure databaseConfig where
  database : String
  dsn : String
deriving Repr, DecidableEq

/-- `type redisConfig` (source field names: host, password, prefix). -/
structure redisConfig where
  host : String
  password : String
  Prefix : String
deriving Repr, DecidableEq

/-- `type config` (the unexported configuration struct of Goravel). -/
structure config where
  port : String
  renderer : String
  cookie : cookieConfig
  sessionType : String
  database : databaseConfig
  redis : redisConfig
deriving Repr, DecidableEq

/-- The Go zero value of `config`: every string field is `""`.  This is
the value `grv.config` holds from the start of `New` until the explicit
assignment to `grv.config` later in `New`. -/
def zeroConfig : config :=
  { port := ""
    renderer := ""
    cookie := { name := "", lifetime := "", persist := "", secureStr := "", domain := "" }
    sessionType := ""
    database := { database := "", dsn := "" }
    redis := { host := "", password := "", Prefix := "" } }

/-- `type Server`. -/
structure Server where
  ServerName : String
  Port : String
  Secure : Bool
  URL : String
deriving Repr, DecidableEq

/-- The redigo `redis.Pool` as configured by `createRedisPool`: the
`Dial` closure is modelled by the host and password it captures, the
`TestOnBorrow` PING probe carries no data, and `IdleTimeout`
(`240 * time.Second`) is recorded in seconds. -/
structure RedisPool where
  MaxIdle : Nat
  MaxActive : Nat
  IdleTimeoutSec : Nat
  DialHost : String
  DialPassword : String
deriving Repr, DecidableEq

/-- `cache.RedisCache`: a pooled connection plus a key prefix. -/
structure RedisCache where
  Conn : RedisPool
  Prefix : String
deriving Repr, DecidableEq

/-- An opened badger store handle, identified by its directory. -/
structure BadgerDB where
  dir : String
deriving Repr, DecidableEq

/-- `cache.BadgerCache`: `Conn` is a nilable `*badger.DB`. -/
structure BadgerCache where
  Conn : Option BadgerDB
  Prefix : String
deriving Repr, DecidableEq

/-- An opened `*sql.DB` handle, identified by driver and DSN. -/
structure DBPool where
  driver : String
  dsn : String
deriving Repr, DecidableEq

/-- `type Database` (DataBaseType plus a nilable pool handle). -/
structure Database where
  DataBaseType : String
  Pool : Option DBPool
deriving Repr, DecidableEq

/-- `mailer.Mail` as built by `createMailer`.  The two buffered channels
`Jobs` (`make(chan mailer.Message, 20)`) and `Results`
(`make(chan mailer.Result, 20)`) are modelled by their capacities. -/
structure Mail where
  Domain : String
  Templates : String
  Host : String
  Port : Int
  Username : String
  Password : String
  Encryption : String
  FromName : String
  FromAddress : String
  JobsCapacity : Nat
  ResultsCapacity : Nat
  API : String
  APIKey : String
  APIUrl : String
deriving Repr, DecidableEq

/-- The action of a job registered with the cron scheduler.  The only
job Goravel registers calls `myBadgerCache.Conn.RunValueLogGC(0.7)`;
it is modelled by the handle the closure captures and the discard
ratio. -/
inductive JobAction where
  | runValueLogGC (conn : Option BadgerDB) (discardRatio : ℚ)
deriving Repr, DecidableEq

/-- The concrete cache value installed in the `grv.Cache` interface
field: either the redis-backed or the badger-backed client. -/
inductive CacheFacade where
  | redisC (c : RedisCache)
  | badgerC (c : BadgerCache)
deriving Repr, DecidableEq

/-- Outcomes of the effectful calls `New` makes, in source order:
`Init` (directory creation), `checkDotEnv`, `godotenv.Load`,
`OpenDB`, `badger.Open`.  `none` means the call succeeded; `some e`
carries the error message. -/
structure Effects where
  initErr : Option String
  dotEnvErr : Option String
  loadErr : Option String
  dbOpenErr : Option String
  badgerOpenErr : Option String
deriving Repr, DecidableEq

/-- `BuildDSN`: a postgres DSN from DATABASE_* variables; empty for any
other (or unset) DATABASE_TYPE. -/
def BuildDSN (env : Env) : String :=
  if env "DATABASE_TYPE" = "postgres" ∨ env "DATABASE_TYPE" = "postgresql" then
    let dsn := "host=" ++ env "DATABASE_HOST" ++ " port=" ++ env "DATABASE_PORT"
      ++ " user=" ++ env "DATABASE_USER" ++ " dbname=" ++ env "DATABASE_NAME"
      ++ " sslmode=" ++ env "DATABASE_SSL_MODE" ++ " timezone=UTC connect_timeout=5"
    if env "DATABASE_PASS" ≠ "" then dsn ++ " password=" ++ env "DATABASE_PASS" else dsn
  else ""

/-- `createRedisPool`: `MaxIdle: 50, MaxActive: 10000, IdleTimeout:
240 * time.Second`, with `Dial` closing over the configured redis host
and password. -/
def createRedisPool (c : redisConfig) : RedisPool :=
  { MaxIdle := 50
    MaxActive := 10000
    IdleTimeoutSec := 240
    DialHost := c.host
    DialPassword := c.password }

/-- `createClientRedisCache`: wraps `createRedisPool` and copies
`grv.config.redis.prefix` (whatever `grv.config` holds at call time). -/
def createClientRedisCache (cfg : config) : RedisCache :=
  { Conn := createRedisPool cfg.redis
    Prefix := cfg.redis.Prefix }

/-- `createBadgerConn`: `badger.Open(DefaultOptions(rootPath +
"/tmp/badger"))`; on error it returns nil (and no error value — the
function's type has no error result). -/
def createBadgerConn (rootPath : String) (openErr : Option String) : Option BadgerDB :=
  match openErr with
  | some _ => none
  | none => some { dir := rootPath ++ "/tmp/badger" }

/-- `createClientBadgerCache`: wraps `createBadgerConn` and copies
`grv.config.redis.prefix` (whatever `grv.config` holds at call time). -/
def createClientBadgerCache (cfg : config) (rootPath : String) (openErr : Option String) :
    BadgerCache :=
  { Conn := createBadgerConn rootPath openErr
    Prefix := cfg.redis.Prefix }

/-- `createMailer`: every field from SMTP_*/MAIL*/FROM_* variables; the
port comes from `port, _ := strconv.Atoi(os.Getenv("SMTP_PORT"))`, whose
error is discarded, leaving `0` on a parse failure; the two channels are
created with capacity 20. -/
def createMailer (env : Env) (rootPath : String) : Mail :=
  { Domain := env "MAIL_DOMAIN"
    Templates := rootPath ++ "/mail"
    Host := env "SMTP_HOST"
    Port := (goAtoi (env "SMTP_PORT")).getD 0
    Username := env "SMTP_USERNAME"
    Password := env "SMTP_PASSWORD"
    Encryption := env "SMTP_ENCRYPTION"
    FromName := env "FROM_NAME"
    FromAddress := env "FROM_ADDRESS"
    JobsCapacity := 20
    ResultsCapacity := 20
    API := env "MAILER_API"
    APIKey := env "MAILER_KEY"
    APIUrl := env "MAILER_URL" }

/-- robfig/cron `AddFunc` on a fresh scheduler's job list: the schedule
expression is parsed first; the descriptor `"@daily"` (the only
expression this program uses) is accepted, and on success the job is
appended. -/
def cronAddFunc (jobs : List (String × JobAction)) (spec : String) (a : JobAction) :
    Except String (List (String × JobAction)) :=
  if spec = "@daily" then Except.ok (jobs ++ [(spec, a)]) else Except.error "invalid spec"

/-- The scheduler registration step of `New`: when CACHE is `"badger"`,
`AddFunc("@daily", func() { myBadgerCache.Conn.RunValueLogGC(0.7) })` is
called on the fresh scheduler; otherwise no job is registered. -/
def badgerJobs (env : Env) (fx : Effects) (rootPath : String) :
    Except String (List (String × JobAction)) :=
  if env "CACHE" = "badger" then
    cronAddFunc [] "@daily"
      (JobAction.runValueLogGC (createBadgerConn rootPath fx.badgerOpenErr) (7/10))
  else Except.ok []

/-- The job list `badgerJobs` produces (it never fails: `"@daily"` is a
valid cron descriptor). -/
def badgerJobsList (env : Env) (fx : Effects) (rootPath : String) :
    List (String × JobAction) :=
  if env "CACHE" = "badger" then
    [("@daily", JobAction.runValueLogGC (createBadgerConn rootPath fx.badgerOpenErr) (7/10))]
  else []

/-- The redis client built in `New`, when `CACHE == "redis" ||
SESSION_TYPE == "redis"`.  Note that at this point of `New` the field
`grv.config` still holds its zero value — the assignment to `grv.config`
only happens later — so the cache is built from `zeroConfig`. -/
def myRedisOf (env : Env) : Option RedisCache :=
  if env "CACHE" = "redis" ∨ env "SESSION_TYPE" = "redis" then
    some (createClientRedisCache zeroConfig)
  else none

/-- The badger client built in `New`, when `CACHE == "badger"` (also
built from the still-zero `grv.config`). -/
def myBadgerOf (env : Env) (fx : Effects) (rootPath : String) : Option BadgerCache :=
  if env "CACHE" = "badger" then
    some (createClientBadgerCache zeroConfig rootPath fx.badgerOpenErr)
  else none

/-- The final value of `grv.Cache`: the redis branch assigns it when
`CACHE == "redis" || SESSION_TYPE == "redis"`, and the badger branch
(which runs second) overwrites it when `CACHE == "badger"`. -/
def cacheFacadeOf (env : Env) (fx : Effects) (rootPath : String) : Option CacheFacade :=
  if env "CACHE" = "badger" then
    some (CacheFacade.badgerC (createClientBadgerCache zeroConfig rootPath fx.badgerOpenErr))
  else if env "CACHE" = "redis" ∨ env "SESSION_TYPE" = "redis" then
    some (CacheFacade.redisC (createClientRedisCache zeroConfig))
  else none

/-- `grv.DB` after the database step: set from `OpenDB` when
DATABASE_TYPE is non-empty, otherwise left at its zero value. -/
def dbOf (env : Env) : Database :=
  if env "DATABASE_TYPE" ≠ "" then
    { DataBaseType := env "DATABASE_TYPE"
      Pool := some { driver := env "DATABASE_TYPE", dsn := BuildDSN env } }
  else { DataBaseType := "", Pool := none }

/-- The `config` value assigned to `grv.config` in `New` (after the
caches were already created). -/
def mkConfig (env : Env) : config :=
  { port := env "PORT"
    renderer := env "RENDERER"
    cookie :=
      { name := env "COOKIE_NAME"
        lifetime := env "COOKIE_LIFETIME"
        persist := env "COOKIE_PERSISTS"
        secureStr := env "COOKIE_SECURE"
        domain := env "COOKIE_DOMAIN" }
    sessionType := env "SESSION_TYPE"
    database := { database := env "DATABASE_TYPE", dsn := BuildDSN env }
    redis :=
      { host := env "REDIS_HOST"
        password := env "REDIS_PASSWORD"
        Prefix := env "REDIS_PREFIX" } }

/-- The `Server` value assigned to `grv.Server`: `secure` starts `true`
and is set `false` exactly when `strings.ToLower(os.Getenv("SECURE")) ==
"false"`; the name comes from the (misspelled in the source) variable
SEVER_NAME. -/
def mkServer (env : Env) : Server :=
  { ServerName := env "SEVER_NAME"
    Port := env "PORT"
    Secure := if goToLower (env "SECURE") = "false" then false else true
    URL := env "APP_URL" }

/-- The fields of the `Goravel` receiver that `New` populates (routing,
rendering, session and logging collaborators are outside the modelled
core; `myRedisCache`, `myBadgerCache` model the package-level globals). -/
structure GoravelState where
  debug : Bool
  versionStr : String
  rootPath : String
  db : Database
  cache : Option CacheFacade
  schedulerJobs : List (String × JobAction)
  mail : Mail
  cfg : config
  server : Server
  encryptionKey : String
  myRedisCache : Option RedisCache
  myBadgerCache : Option BadgerCache
deriving Repr, DecidableEq

/-- Events of one run of `New`, in program order.  `schedulerStarted`
would mark a call to `grv.Scheduler.Start()` — `New` never makes one;
`mailWorkerStarted` marks `go grv.Mail.ListenForMail()`. -/
inductive NewEvent where
  | schedulerConstructed
  | schedulerStarted
  | redisPoolConstructed
  | redisCacheConstructed
  | badgerCacheConstructed
  | gcJobRegistered
  | mailerConstructed
  | mailWorkerStarted
  | returned
deriving Repr, DecidableEq

/-- How `New` ends: a normal `return nil` carrying the populated
receiver, an error return, or a process abort (`os.Exit`). -/
inductive NewOutcome where
  | ok (g : GoravelState)
  | errReturn (e : String)
  | exited (code : Nat)
deriving Repr, DecidableEq

/-- Result of a run of `New`: its outcome plus its event trace. -/
structure NewResult where
  outcome : NewOutcome
  trace : List NewEvent
deriving Repr, DecidableEq

/-- The state `New` returns on its success path.  The `jobs` argument is
the scheduler's job list produced by the badger registration step. -/
def mkOkState (env : Env) (fx : Effects) (rootPath : String)
    (jobs : List (String × JobAction)) : GoravelState :=
  { debug := (goParseBool (env "DEBUG")).getD false
    versionStr := version
    rootPath := rootPath
    db := dbOf env
    cache := cacheFacadeOf env fx rootPath
    schedulerJobs := jobs
    mail := createMailer env rootPath
    cfg := mkConfig env
    server := mkServer env
    encryptionKey := env "KEY"
    myRedisCache := myRedisOf env
    myBadgerCache := myBadgerOf env fx rootPath }

/-- The event trace of a successful run of `New`. -/
def okTrace (env : Env) : List NewEvent :=
  [NewEvent.schedulerConstructed]
    ++ (if env "CACHE" = "redis" ∨ env "SESSION_TYPE" = "redis" then
          [NewEvent.redisPoolConstructed, NewEvent.redisCacheConstructed]
        else [])
    ++ (if env "CACHE" = "badger" then
          [NewEvent.badgerCacheConstructed, NewEvent.gcJobRegistered]
        else [])
    ++ [NewEvent.mailerConstructed, NewEvent.mailWorkerStarted, NewEvent.returned]

/-- `func (grv *Goravel) New(rootPath string) error`, in source order:
`Init`, `checkDotEnv` and `godotenv.Load` each return their error; a
failing `OpenDB` (with DATABASE_TYPE set) logs and calls `os.Exit(1)`;
then the scheduler is created, the cache branches run (reading the
still-zero `grv.config`), a failing `AddFunc` returns its error;
otherwise the remaining fields are populated, the mail worker goroutine
is started, and `New` returns nil. -/
def New (env : Env) (fx : Effects) (rootPath : String) : NewResult :=
  match fx.initErr with
  | some e => { outcome := NewOutcome.errReturn e, trace := [] }
  | none =>
  match fx.dotEnvErr with
  | some e => { outcome := NewOutcome.errReturn e, trace := [] }
  | none =>
  match fx.loadErr with
  | some e => { outcome := NewOutcome.errReturn e, trace := [] }
  | none =>
  if env "DATABASE_TYPE" ≠ "" ∧ fx.dbOpenErr ≠ none then
    { outcome := NewOutcome.exited 1, trace := [] }
  else
    match badgerJobs env fx rootPath with
    | Except.error e =>
        { outcome := NewOutcome.errReturn e
          trace :=
            [NewEvent.schedulerConstructed]
              ++ (if env "CACHE" = "redis" ∨ env "SESSION_TYPE" = "redis" then
                    [NewEvent.redisPoolConstructed, NewEvent.redisCacheConstructed]
                  else [])
              ++ [NewEvent.badgerCacheConstructed] }
    | Except.ok jobs =>
        { outcome := NewOutcome.ok (mkOkState env fx rootPath jobs)
          trace := okTrace env }

/-! ### ListenAndServe

`ListenAndServe` registers a deferred `Close` for each non-nil handle
among `grv.DB.Pool`, the package global `redisPool` and the package
global `badgerConn`, then blocks in `srv.ListenAndServe()` — which, when
it terminates, always returns a non-nil error — and finally calls
`grv.ErrorLog.Fatal(err)`.  `log.Fatal` is Print followed by
`os.Exit(1)`, and `os.Exit` terminates the process immediately without
running deferred functions; a plain `return`, by contrast, runs the
deferred closes in reverse registration order.  The tiny statement
language below encodes exactly these Go semantics. -/

/-- The three handles `ListenAndServe` guards with deferred closes. -/
inductive Handle where
  | dbPool
  | redisPool
  | badgerConn
deriving Repr, DecidableEq

/-- Straight-line statements of the modelled function body. -/
inductive Stmt where
  /-- `defer h.Close()` -/
  | deferClose (h : Handle)
  /-- `srv.ListenAndServe()` — blocks; when it terminates it has
  returned a (always non-nil) error -/
  | serve
  /-- `grv.ErrorLog.Fatal(err)` — print, then `os.Exit(1)` -/
  | fatal
deriving Repr, DecidableEq

/-- Observable events of a run of the modelled function body. -/
inductive LSEvent where
  | closed (h : Handle)
  | served
  | exited (code : Nat)
deriving Repr, DecidableEq

/-- Execute a straight-line Go function body, threading the LIFO defer
stack: reaching the end of the body (a normal return) runs the deferred
closes in reverse registration order; `os.Exit` — reached via
`log.Fatal` — terminates at once and the deferred functions are not
run. -/
def execBody : List Stmt → List Handle → List LSEvent
  | [], ds => ds.map LSEvent.closed
  | Stmt.deferClose h :: rest, ds => execBody rest (h :: ds)
  | Stmt.serve :: rest, ds => LSEvent.served :: execBody rest ds
  | Stmt.fatal :: _, _ => [LSEvent.exited 1]

/-- The body of `ListenAndServe`, parametrized by which of the three
handles are non-nil when it runs. -/
def listenAndServeBody (dbNonNil redisNonNil badgerNonNil : Bool) : List Stmt :=
  (if dbNonNil then [Stmt.deferClose Handle.dbPool] else [])
    ++ (if redisNonNil then [Stmt.deferClose Handle.redisPool] else [])
    ++ (if badgerNonNil then [Stmt.deferClose Handle.badgerConn] else [])
    ++ [Stmt.serve, Stmt.fatal]

/-- The event trace of a terminating run of `ListenAndServe`. -/
def listenAndServe (dbNonNil redisNonNil badgerNonNil : Bool) : List LSEvent :=
  execBody (listenAndServeBody dbNonNil redisNonNil badgerNonNil) []

/-! ### Projection helpers on `NewOutcome` -/

/-- Whether `New` returned nil (populated receiver, traffic accepted). -/
def NewOutcome.isOk : NewOutcome → Bool
  | NewOutcome.ok _ => true
  | _ => false

/-- The mailer port of a successful outcome. -/
def NewOutcome.mailPort : NewOutcome → Option Int
  | NewOutcome.ok g => some g.mail.Port
  | _ => none

/-- The installed cache facade of a successful outcome. -/
def NewOutcome.cacheOf : NewOutcome → Option (Option CacheFacade)
  | NewOutcome.ok g => some g.cache
  | _ => none

/-- The key prefix carried by the installed facade, if any. -/
def CacheFacade.prefixOf : CacheFacade → String
  | CacheFacade.redisC r => r.Prefix
  | CacheFacade.badgerC b => b.Prefix

/-- The installed facade's key prefix, for a successful outcome. -/
def NewOutcome.facadePrefix : NewOutcome → Option (Option String)
  | NewOutcome.ok g => some (g.cache.map CacheFacade.prefixOf)
  | _ => none

/-- The prefix recorded in `grv.config.redis`, for a successful
outcome. -/
def NewOutcome.cfgRedisPrefix : NewOutcome → Option String
  | NewOutcome.ok g => some g.cfg.redis.Prefix
  | _ => none

/-- The badger client's connection handle (`some none` = a badger cache
was installed whose `Conn` is nil), for a successful outcome. -/
def NewOutcome.badgerConnOf : NewOutcome → Option (Option (Option BadgerDB))
  | NewOutcome.ok g => some (g.myBadgerCache.map BadgerCache.Conn)
  | _ => none

/-- The scheduler's registered jobs, for a successful outcome. -/
def NewOutcome.jobsOf : NewOutcome → Option (List (String × JobAction))
  | NewOutcome.ok g => some g.schedulerJobs
  | _ => none

/-- Events that mark construction of a cache backend or its pool. -/
def isConstructionEvent : NewEvent → Bool
  | NewEvent.redisPoolConstructed => true
  | NewEvent.redisCacheConstructed => true
  | NewEvent.badgerCacheConstructed => true
  | _ => false

/-! ### Shape lemmas for `New` -/

/-- The badger registration step never fails: `"@daily"` parses. -/
theorem badgerJobs_eq (env : Env) (fx : Effects) (root : String) :
    badgerJobs env fx root = Except.ok (badgerJobsList env fx root) := by
  unfold badgerJobs badgerJobsList cronAddFunc
  by_cases h : env "CACHE" = "badger" <;> simp [h]

/-- On the success path (`Init`, `checkDotEnv`, `godotenv.Load` succeed
and the database step does not abort), `New` returns the populated
receiver and the success trace. -/
theorem New_ok (env : Env) (fx : Effects) (root : String)
    (hinit : fx.initErr = none) (hdot : fx.dotEnvErr = none) (hload : fx.loadErr = none)
    (hdb : ¬(env "DATABASE_TYPE" ≠ "" ∧ fx.dbOpenErr ≠ none)) :
    New env fx root =
      { outcome := NewOutcome.ok (mkOkState env fx root (badgerJobsList env fx root))
        trace := okTrace env } := by
  unfold New
  rw [hinit, hdot, hload, badgerJobs_eq]
  simp [hdb]

/-- Conversely, a successful outcome of `New` pins down the effect
hypotheses and the returned state. -/
theorem New_ok_inv (env : Env) (fx : Effects) (root : String) (g : GoravelState)
    (h : (New env fx root).outcome = NewOutcome.ok g) :
    fx.initErr = none ∧ fx.dotEnvErr = none ∧ fx.loadErr = none ∧
      ¬(env "DATABASE_TYPE" ≠ "" ∧ fx.dbOpenErr ≠ none) ∧
      g = mkOkState env fx root (badgerJobsList env fx root) := by
  obtain ⟨i, d, l, db, b⟩ := fx
  cases i with
  | some e => simp [New] at h
  | none =>
  cases d with
  | some e => simp [New] at h
  | none =>
  cases l with
  | some e => simp [New] at h
  | none =>
  by_cases hdb : env "DATABASE_TYPE" ≠ "" ∧ db ≠ none
  · rw [New] at h
    rw [if_pos hdb] at h
    simp at h
  · rw [New] at h
    rw [if_neg hdb] at h
    rw [badgerJobs_eq] at h
    simp at h
    exact ⟨rfl, rfl, rfl, hdb, h.symm⟩

/-- On the database abort path, `New` exits with code 1. -/
theorem New_exit (env : Env) (fx : Effects) (root : String)
    (hinit : fx.initErr = none) (hdot : fx.dotEnvErr = none) (hload : fx.loadErr = none)
    (hdb : env "DATABASE_TYPE" ≠ "" ∧ fx.dbOpenErr ≠ none) :
    New env fx root = { outcome := NewOutcome.exited 1, trace := [] } := by
  unfold New
  rw [hinit, hdot, hload]
  simp [hdb]

/-! ### Concrete inputs used to instantiate the theorems -/

/-- All effectful calls succeed. -/
def fxOk : Effects :=
  { initErr := none, dotEnvErr := none, loadErr := none, dbOpenErr := none,
    badgerOpenErr := none }

/-- Effects where `OpenDB` fails (unreachable database). -/
def fxDbFail : Effects :=
  { initErr := none, dotEnvErr := none, loadErr := none,
    dbOpenErr := some "dial refused", badgerOpenErr := none }

/-- Effects where `badger.Open` fails. -/
def fxBadgerFail : Effects :=
  { initErr := none, dotEnvErr := none, loadErr := none, dbOpenErr := none,
    badgerOpenErr := some "cannot open data dir" }

/-- Every environment variable unset. -/
def envEmpty : Env := fun _ => ""

/-- Only SMTP_PORT set, to a non-numeric value. -/
def envSMTPBad : Env := fun k => if k = "SMTP_PORT" then "abc" else ""

/-- Only SESSION_TYPE set, to "redis"; CACHE is unset. -/
def envSessionRedis : Env := fun k => if k = "SESSION_TYPE" then "redis" else ""

/-- CACHE set to "redis" and REDIS_PREFIX set to "myapp". -/
def envPrefixRedis : Env :=
  fun k => if k = "REDIS_PREFIX" then "myapp" else if k = "CACHE" then "redis" else ""

/-- Only CACHE set, to "badger". -/
def envBadger : Env := fun k => if k = "CACHE" then "badger" else ""

/-- Only DATABASE_TYPE set, to "postgres". -/
def envDbOnly : Env := fun k => if k = "DATABASE_TYPE" then "postgres" else ""

/-! ### Model validation: a normal return does run the deferred closes
(the defer machinery of `execBody` is the standard Go one; only
`os.Exit` bypasses it). -/

/-- A body that ends normally (no `os.Exit`) runs its deferred closes in
reverse registration order. -/
theorem execBody_return_runs_defers :
    execBody [Stmt.deferClose Handle.dbPool, Stmt.deferClose Handle.redisPool, Stmt.serve] [] =
      [LSEvent.served, LSEvent.closed Handle.redisPool, LSEvent.closed Handle.dbPool] := by
  decide

/-! ### Claim theorems -/

/-- Claim C1 (evidence of the code bug): in a terminating run of
`ListenAndServe` with all three pool handles non-nil, the trace is the
serve return followed immediately by `os.Exit(1)` — no `closed` event
ever occurs, because `ErrorLog.Fatal` exits without running the deferred
closes, contradicting the claim (and the source comment "close DB when
app close") that every non-nil guarded handle is closed before process
exit. -/
theorem c1_pools_not_closed :
    listenAndServe true true true = [LSEvent.served, LSEvent.exited 1] ∧
    ∀ h : Handle, LSEvent.closed h ∉ listenAndServe true true true := by
  constructor
  · rfl
  · intro h
    cases h <;> decide

/-- Claim C2, counterexample: two configurations that differ in every
field yield pools with identical bounds, and those bounds are the
program constants 50 / 10000 / 240 s — the bounds are not taken from the
configuration. -/
theorem c2_counterexample :
    (createRedisPool { host := "h1", password := "p1", Prefix := "q1" }).MaxIdle =
        (createRedisPool { host := "h2", password := "p2", Prefix := "q2" }).MaxIdle ∧
    (createRedisPool { host := "h1", password := "p1", Prefix := "q1" }).MaxActive =
        (createRedisPool { host := "h2", password := "p2", Prefix := "q2" }).MaxActive ∧
    (createRedisPool { host := "h1", password := "p1", Prefix := "q1" }).IdleTimeoutSec =
        (createRedisPool { host := "h2", password := "p2", Prefix := "q2" }).IdleTimeoutSec ∧
    (createRedisPool { host := "h1", password := "p1", Prefix := "q1" }).MaxIdle = 50 ∧
    (createRedisPool { host := "h1", password := "p1", Prefix := "q1" }).MaxActive = 10000 ∧
    (createRedisPool { host := "h1", password := "p1", Prefix := "q1" }).IdleTimeoutSec = 240 := by
  decide

/-- Claim C2, amended: for every configuration the pool is constructed
with the fixed bounds MaxIdle 50, MaxActive 10000, IdleTimeout 240 s;
only the dial host and password come from the configuration. -/
theorem c2_amended (c : redisConfig) :
    (createRedisPool c).MaxIdle = 50 ∧
    (createRedisPool c).MaxActive = 10000 ∧
    (createRedisPool c).IdleTimeoutSec = 240 ∧
    (createRedisPool c).DialHost = c.host ∧
    (createRedisPool c).DialPassword = c.password :=
  ⟨rfl, rfl, rfl, rfl, rfl⟩

/-- Claim C3, counterexample: with SMTP_PORT set to the unparseable
"abc" (and all other effects fine), `New` succeeds — the process
proceeds — with the mailer port silently defaulted to 0. -/
theorem c3_counterexample :
    goAtoi (envSMTPBad "SMTP_PORT") = none ∧
    (New envSMTPBad fxOk "/app").outcome.isOk = true ∧
    (New envSMTPBad fxOk "/app").outcome.mailPort = some 0 := by
  refine ⟨by decide, by decide, by decide⟩

/-- Claim C3, amended: an unreachable database (with DATABASE_TYPE set)
is fatal at startup — `New` exits with code 1; but an unparseable
SMTP_PORT is silently defaulted to 0, and a failed `badger.Open` (with
CACHE="badger") silently yields a badger cache whose handle is nil —
in both of those cases startup proceeds. -/
theorem c3_amended (env : Env) (fx : Effects) (root : String)
    (hinit : fx.initErr = none) (hdot : fx.dotEnvErr = none) (hload : fx.loadErr = none) :
    (env "DATABASE_TYPE" ≠ "" → fx.dbOpenErr ≠ none →
      (New env fx root).outcome = NewOutcome.exited 1) ∧
    (fx.dbOpenErr = none → goAtoi (env "SMTP_PORT") = none →
      (New env fx root).outcome.isOk = true ∧
      (New env fx root).outcome.mailPort = some 0) ∧
    (fx.dbOpenErr = none → env "CACHE" = "badger" → fx.badgerOpenErr ≠ none →
      (New env fx root).outcome.isOk = true ∧
      (New env fx root).outcome.badgerConnOf = some (some none)) := by
  refine ⟨?_, ?_, ?_⟩
  · intro h1 h2
    rw [New_exit env fx root hinit hdot hload ⟨h1, h2⟩]
  · intro hdb hsm
    have hnd : ¬(env "DATABASE_TYPE" ≠ "" ∧ fx.dbOpenErr ≠ none) := fun x => x.2 hdb
    rw [New_ok env fx root hinit hdot hload hnd]
    exact ⟨rfl, by simp [NewOutcome.mailPort, mkOkState, createMailer, hsm]⟩
  · intro hdb hc hb
    have hnd : ¬(env "DATABASE_TYPE" ≠ "" ∧ fx.dbOpenErr ≠ none) := fun x => x.2 hdb
    rw [New_ok env fx root hinit hdot hload hnd]
    obtain ⟨e, hbo⟩ := Option.ne_none_iff_exists'.mp hb
    exact ⟨rfl, by
      simp [NewOutcome.badgerConnOf, mkOkState, myBadgerOf, hc,
        createClientBadgerCache, createBadgerConn, hbo]⟩

/-- Claim C3, witness: the database-failure part at a concrete input
(DATABASE_TYPE="postgres", OpenDB fails), and the SMTP part at a
concrete input (SMTP_PORT="abc"). -/
theorem c3_amended_witness :
    (New envDbOnly fxDbFail "/app").outcome = NewOutcome.exited 1 ∧
    (New envSMTPBad fxOk "/app").outcome.mailPort = some 0 :=
  ⟨(c3_amended envDbOnly fxDbFail "/app" rfl rfl rfl).1 (by decide) (by decide),
   ((c3_amended envSMTPBad fxOk "/app" rfl rfl rfl).2.1 (by decide) (by decide)).2⟩

/-- Claim C4: in every successful run of `New`, if CACHE is "badger"
the scheduler holds exactly one registered job, scheduled "@daily",
whose action calls the badger GC routine with discard ratio 0.7; if
CACHE is not "badger", the scheduler holds no job at all. -/
theorem c4_badger_gc_job (env : Env) (fx : Effects) (root : String) (g : GoravelState)
    (h : (New env fx root).outcome = NewOutcome.ok g) :
    (env "CACHE" = "badger" →
      ∃ conn, g.schedulerJobs = [("@daily", JobAction.runValueLogGC conn (7/10))]) ∧
    (env "CACHE" ≠ "badger" → g.schedulerJobs = []) := by
  obtain ⟨-, -, -, -, hg⟩ := New_ok_inv env fx root g h
  subst hg
  constructor
  · intro hc
    exact ⟨createBadgerConn root fx.badgerOpenErr, by simp [mkOkState, badgerJobsList, hc]⟩
  · intro hc
    simp [mkOkState, badgerJobsList, hc]

/-- Claim C4, witness: with CACHE="badger" the single "@daily" GC job at
ratio 0.7 is registered. -/
theorem c4_badger_gc_job_witness :
    ∃ conn,
      (mkOkState envBadger fxOk "/app" (badgerJobsList envBadger fxOk "/app")).schedulerJobs =
        [("@daily", JobAction.runValueLogGC conn (7/10))] :=
  (c4_badger_gc_job envBadger fxOk "/app"
      (mkOkState envBadger fxOk "/app" (badgerJobsList envBadger fxOk "/app"))
      (by rw [New_ok envBadger fxOk "/app" rfl rfl rfl (by decide)])).1 rfl

/-- Claim C5: for every environment and root path, `createMailer`
builds the mail pipeline with a jobs channel of capacity exactly 20 and
a results channel of capacity exactly 20. -/
theorem c5_mail_capacities (env : Env) (root : String) :
    (createMailer env root).JobsCapacity = 20 ∧
    (createMailer env root).ResultsCapacity = 20 :=
  ⟨rfl, rfl⟩

/-- Claim C6, counterexample: two environments agreeing on the CACHE
setting (both unset) but differing in SESSION_TYPE produce different
facades — SESSION_TYPE="redis" installs the redis backend, refuting
"no other input to the program changes which backend the facade is". -/
theorem c6_counterexample :
    envSessionRedis "CACHE" = envEmpty "CACHE" ∧
    (New envSessionRedis fxOk "/app").outcome.cacheOf =
      some (some (CacheFacade.redisC (createClientRedisCache zeroConfig))) ∧
    (New envEmpty fxOk "/app").outcome.cacheOf = some none := by
  refine ⟨by decide, by decide, by decide⟩

/-- Claim C6, amended: the facade is chosen by CACHE and SESSION_TYPE
together — CACHE="badger" installs the embedded-store backend;
otherwise CACHE="redis" or SESSION_TYPE="redis" installs the pooled
network-cache backend; otherwise no facade is installed. -/
theorem c6_amended (env : Env) (fx : Effects) (root : String) (g : GoravelState)
    (h : (New env fx root).outcome = NewOutcome.ok g) :
    (env "CACHE" = "badger" →
      g.cache = some (CacheFacade.badgerC (createClientBadgerCache zeroConfig root fx.badgerOpenErr))) ∧
    (env "CACHE" ≠ "badger" → (env "CACHE" = "redis" ∨ env "SESSION_TYPE" = "redis") →
      g.cache = some (CacheFacade.redisC (createClientRedisCache zeroConfig))) ∧
    (env "CACHE" ≠ "badger" → env "CACHE" ≠ "redis" → env "SESSION_TYPE" ≠ "redis" →
      g.cache = none) := by
  obtain ⟨-, -, -, -, hg⟩ := New_ok_inv env fx root g h
  subst hg
  refine ⟨?_, ?_, ?_⟩
  · intro hc
    simp [mkOkState, cacheFacadeOf, hc]
  · intro hc hr
    simp [mkOkState, cacheFacadeOf, hc, hr]
  · intro h1 h2 h3
    simp [mkOkState, cacheFacadeOf, h1, h2, h3]

/-- Claim C6, witness: with CACHE unset and SESSION_TYPE="redis", the
redis facade is installed. -/
theorem c6_amended_witness :
    (mkOkState envSessionRedis fxOk "/app" (badgerJobsList envSessionRedis fxOk "/app")).cache =
      some (CacheFacade.redisC (createClientRedisCache zeroConfig)) :=
  ((c6_amended envSessionRedis fxOk "/app"
      (mkOkState envSessionRedis fxOk "/app" (badgerJobsList envSessionRedis fxOk "/app"))
      (by rw [New_ok envSessionRedis fxOk "/app" rfl rfl rfl (by decide)])).2.1
    (by decide) (by decide))

/-- Claim C7: in every successful run of `New`, the scheduler is never
started (so the backends are trivially constructed before any scheduler
start), every cache/pool construction event precedes the start of the
mail dispatch worker, and the worker is started immediately before `New`
returns. -/
theorem c7_ordering (env : Env) (fx : Effects) (root : String) (g : GoravelState)
    (h : (New env fx root).outcome = NewOutcome.ok g) :
    NewEvent.schedulerStarted ∉ (New env fx root).trace ∧
    ∃ pre, (New env fx root).trace = pre ++ [NewEvent.mailWorkerStarted, NewEvent.returned] ∧
      NewEvent.mailWorkerStarted ∉ pre ∧
      ∀ e ∈ (New env fx root).trace, isConstructionEvent e = true → e ∈ pre := by
  obtain ⟨h1, h2, h3, h4, -⟩ := New_ok_inv env fx root g h
  have ht : (New env fx root).trace = okTrace env := by
    rw [New_ok env fx root h1 h2 h3 h4]
  rw [ht]
  unfold okTrace
  by_cases hr : env "CACHE" = "redis" ∨ env "SESSION_TYPE" = "redis"
  · rw [if_pos hr]
    by_cases hb : env "CACHE" = "badger"
    · rw [if_pos hb]
      exact ⟨by decide,
        ⟨[NewEvent.schedulerConstructed, NewEvent.redisPoolConstructed,
            NewEvent.redisCacheConstructed, NewEvent.badgerCacheConstructed,
            NewEvent.gcJobRegistered, NewEvent.mailerConstructed],
          by decide, by decide, by decide⟩⟩
    · rw [if_neg hb]
      exact ⟨by decide,
        ⟨[NewEvent.schedulerConstructed, NewEvent.redisPoolConstructed,
            NewEvent.redisCacheConstructed, NewEvent.mailerConstructed],
          by decide, by decide, by decide⟩⟩
  · rw [if_neg hr]
    by_cases hb : env "CACHE" = "badger"
    · rw [if_pos hb]
      exact ⟨by decide,
        ⟨[NewEvent.schedulerConstructed, NewEvent.badgerCacheConstructed,
            NewEvent.gcJobRegistered, NewEvent.mailerConstructed],
          by decide, by decide, by decide⟩⟩
    · rw [if_neg hb]
      exact ⟨by decide,
        ⟨[NewEvent.schedulerConstructed, NewEvent.mailerConstructed],
          by decide, by decide, by decide⟩⟩

/-- Claim C7, witness: the ordering at a concrete successful run. -/
theorem c7_ordering_witness :
    NewEvent.schedulerStarted ∉ (New envEmpty fxOk "/app").trace ∧
    ∃ pre,
      (New envEmpty fxOk "/app").trace = pre ++ [NewEvent.mailWorkerStarted, NewEvent.returned] ∧
      NewEvent.mailWorkerStarted ∉ pre ∧
      ∀ e ∈ (New envEmpty fxOk "/app").trace, isConstructionEvent e = true → e ∈ pre :=
  c7_ordering envEmpty fxOk "/app"
    (mkOkState envEmpty fxOk "/app" (badgerJobsList envEmpty fxOk "/app"))
    (by rw [New_ok envEmpty fxOk "/app" rfl rfl rfl (by decide)])

/-- Claim C8 (evidence of the code bug): with CACHE="redis" and
REDIS_PREFIX="myapp", the installed facade carries the empty prefix —
the caches are built while `grv.config` still holds its zero value —
even though the configuration assigned moments later records "myapp". -/
theorem c8_prefix_not_configured :
    envPrefixRedis "REDIS_PREFIX" = "myapp" ∧
    (New envPrefixRedis fxOk "/app").outcome.facadePrefix = some (some "") ∧
    (New envPrefixRedis fxOk "/app").outcome.cfgRedisPrefix = some "myapp" := by
  refine ⟨by decide, by decide, by decide⟩

/-- Claim C9: when `badger.Open` fails with CACHE="badger" (and the
earlier startup steps succeed), `createBadgerConn` returns nil with no
error, `New` still succeeds, the installed facade is a badger cache
whose handle is nil, and the daily GC job is registered over that nil
handle. -/
theorem c9_nil_badger (env : Env) (fx : Effects) (root : String) (e : String)
    (hinit : fx.initErr = none) (hdot : fx.dotEnvErr = none) (hload : fx.loadErr = none)
    (hdb : fx.dbOpenErr = none) (hc : env "CACHE" = "badger")
    (hb : fx.badgerOpenErr = some e) :
    createBadgerConn root fx.badgerOpenErr = none ∧
    (New env fx root).outcome.isOk = true ∧
    (New env fx root).outcome.cacheOf =
      some (some (CacheFacade.badgerC { Conn := none, Prefix := "" })) ∧
    (New env fx root).outcome.jobsOf =
      some [("@daily", JobAction.runValueLogGC none (7/10))] := by
  have hnd : ¬(env "DATABASE_TYPE" ≠ "" ∧ fx.dbOpenErr ≠ none) := fun x => x.2 hdb
  rw [New_ok env fx root hinit hdot hload hnd]
  refine ⟨by rw [hb]; rfl, rfl, ?_, ?_⟩
  · simp [NewOutcome.cacheOf, mkOkState, cacheFacadeOf, hc, createClientBadgerCache,
      createBadgerConn, hb, zeroConfig]
  · simp [NewOutcome.jobsOf, mkOkState, badgerJobsList, hc, createBadgerConn, hb]

/-- Claim C9, witness: at CACHE="badger" with a failing `badger.Open`. -/
theorem c9_nil_badger_witness :
    createBadgerConn "/app" fxBadgerFail.badgerOpenErr = none ∧
    (New envBadger fxBadgerFail "/app").outcome.isOk = true ∧
    (New envBadger fxBadgerFail "/app").outcome.cacheOf =
      some (some (CacheFacade.badgerC { Conn := none, Prefix := "" })) ∧
    (New envBadger fxBadgerFail "/app").outcome.jobsOf =
      some [("@daily", JobAction.runValueLogGC none (7/10))] :=
  c9_nil_badger envBadger fxBadgerFail "/app" "cannot open data dir" rfl rfl rfl rfl rfl rfl

/-- Claim C10: the server's Secure flag is true exactly when the SECURE
setting does not lower-case to "false"; in particular an unset (empty)
SECURE yields a secure server. -/
theorem c10_secure :
    (∀ env : Env, ((mkServer env).Secure = true ↔ goToLower (env "SECURE") ≠ "false")) ∧
    (mkServer envEmpty).Secure = true := by
  constructor
  · intro env
    by_cases h : goToLower (env "SECURE") = "false" <;> simp [mkServer, h]
  · decide

end Goravel
